import Mathlib

/-!
Verification of the Conversational AI Builder backend (`server/index.js`).

The development shallowly embeds the Express request handlers as pure
functions.  Mutable server state (the `ASSISTANT_ID` cache, the in-memory
`audioFiles` map, the `public/audio` directory) is threaded explicitly as a
`ServerState` value; the outcomes of outbound network calls and of file-system
writes are supplied by explicit environment records (`ChatEnv`, `AudioEnv`),
so every failure mode of the JavaScript code corresponds to a choice of
environment.  JavaScript strings are modelled as Lean `String`; `Date.now()`
values are modelled as natural numbers drawn from the environment.
-/

/-! ## JavaScript string primitives used by the server -/

/-- Model of `s.substring(0, n)`: the first `n` characters of `s`. -/
def jsSubstring (s : String) (n : Nat) : String :=
  (s.data.take n).asString

/-- Model of `s.trim()`: strip leading and trailing whitespace. -/
def jsTrim (s : String) : String :=
  (((s.data.dropWhile Char.isWhitespace).reverse.dropWhile Char.isWhitespace).reverse).asString

/-- Hexadecimal digit (uppercase, as produced by `encodeURIComponent`). -/
def hexDigitChar (n : Nat) : Char :=
  if n < 10 then Char.ofNat (48 + n) else Char.ofNat (55 + n)

/-- UTF-8 byte sequence of a Unicode code point. -/
def utf8Bytes (n : Nat) : List Nat :=
  if n < 0x80 then [n]
  else if n < 0x800 then
    [0xC0 ||| (n >>> 6), 0x80 ||| (n &&& 0x3F)]
  else if n < 0x10000 then
    [0xE0 ||| (n >>> 12), 0x80 ||| ((n >>> 6) &&& 0x3F), 0x80 ||| (n &&& 0x3F)]
  else
    [0xF0 ||| (n >>> 18), 0x80 ||| ((n >>> 12) &&& 0x3F),
     0x80 ||| ((n >>> 6) &&& 0x3F), 0x80 ||| (n &&& 0x3F)]

/-- Characters that `encodeURIComponent` leaves unescaped. -/
def isUnreservedURIChar (c : Char) : Bool :=
  (65 ≤ c.toNat && c.toNat ≤ 90) || (97 ≤ c.toNat && c.toNat ≤ 122) ||
  (48 ≤ c.toNat && c.toNat ≤ 57) ||
  c = '-' || c = '_' || c = '.' || c = '!' || c = '~' || c = '*' ||
  c = Char.ofNat 39 || c = '(' || c = ')'

/-- Percent-encoding of a single character (UTF-8 bytes, `%HH` per byte). -/
def percentEncodeChar (c : Char) : String :=
  ((utf8Bytes c.toNat).map
    (fun b => "%" ++ ([hexDigitChar (b / 16), hexDigitChar (b % 16)]).asString)).foldl
    (· ++ ·) ""

/-- Model of JavaScript `encodeURIComponent`. -/
def encodeURIComponent (s : String) : String :=
  (s.data.map (fun c =>
    if isUnreservedURIChar c then String.singleton c else percentEncodeChar c)).foldl
    (· ++ ·) ""

/-! ## The primary TTS request URL (`generateAudio`, primary tier) -/

/-- The `ttsUrl` built by `generateAudio`:
`text.substring(0, 200)` is URL-encoded and spliced into the query string. -/
def ttsUrl (text : String) : String :=
  "https://translate.google.com/translate_tts?ie=UTF-8&q=" ++
    encodeURIComponent (jsSubstring text 200) ++ "&tl=en&client=tw-ob"

/-! ## File system and the three-tier audio generation -/

/-- Contents of a file written under `public/audio`. -/
inductive FileData where
  | bytes (l : List Nat)
  | text (s : String)
deriving DecidableEq

/-- The `public/audio` directory: an association list of file name and data. -/
abbrev FileSys := List (String × FileData)

deriving instance DecidableEq for Except

/-- A successful `fs.writeFileSync`. -/
def writeFile (fs : FileSys) (name : String) (d : FileData) : FileSys :=
  (name, d) :: fs

/-- The 28-byte demo MP3 written by the secondary tier. -/
def mp3Header : List Nat :=
  [0xFF, 0xFB, 0x90, 0x00,
   0x00, 0x00, 0x00, 0x00, 0x00, 0x00, 0x00, 0x00,
   0x00, 0x00, 0x00, 0x00, 0x00, 0x00, 0x00, 0x00,
   0x00, 0x00, 0x00, 0x00, 0x00, 0x00, 0x00, 0x00]

/-- The 8-byte minimal MP3 written by the tertiary tier. -/
def minimalMp3 : List Nat :=
  [0xFF, 0xFB, 0x90, 0x00, 0x00, 0x00, 0x00, 0x00]

/-- Environment of one `generateAudio` call: the `Date.now()` values drawn
during the call, and the success or failure of each outbound call and each
file-system operation. -/
structure AudioEnv where
  /-- `Date.now()` at entry, used for the `response_` file name. -/
  t0 : Nat
  /-- `Date.now()` for the secondary tier text file name. -/
  tText : Nat
  /-- `Date.now()` inside the tertiary handler, for the `fallback_` name. -/
  tFb : Nat
  /-- `new Date().toLocaleString()` written into the companion text file. -/
  nowLocale : String
  /-- Whether `existsSync`/`mkdirSync` on `public/audio` succeeds. -/
  mkdirOk : Bool
  /-- Result of the Google TTS GET: `some bytes` on success, `none` if the
  request throws (HTTP error or timeout). -/
  primaryFetch : Option (List Nat)
  /-- Whether the write of the primary tier audio bytes succeeds. -/
  writePrimaryOk : Bool
  /-- Whether the write of the secondary tier demo MP3 succeeds. -/
  writeSecondaryMp3Ok : Bool
  /-- Whether the write of the secondary tier companion text file succeeds. -/
  writeSecondaryTxtOk : Bool
  /-- Whether the write of the tertiary tier minimal MP3 succeeds. -/
  writeTertiaryOk : Bool
deriving DecidableEq

/-- The tertiary tier (`catch` of the outer `try`): write a minimal MP3 under
a fresh `fallback_` name, or throw `Failed to generate audio`. -/
def fallbackTierFile (env : AudioEnv) (fs : FileSys) :
    Except Unit (String × FileSys) :=
  if env.writeTertiaryOk then
    let name := "fallback_" ++ Nat.repr env.tFb ++ ".mp3"
    .ok (name, writeFile fs name (.bytes minimalMp3))
  else .error ()

/-- The secondary tier (`catch` of the inner `try`): write the demo MP3 under
the already-chosen `response_` name plus a companion text file; a failing
write escalates to the tertiary tier. -/
def demoTierFile (text : String) (env : AudioEnv) (audioFileName : String)
    (fs : FileSys) : Except Unit (String × FileSys) :=
  if env.writeSecondaryMp3Ok then
    let fs1 := writeFile fs audioFileName (.bytes mp3Header)
    if env.writeSecondaryTxtOk then
      let textFileName := "response_text_" ++ Nat.repr env.tText ++ ".txt"
      let content := "Spoken Text: \"" ++ text ++ "\"\n\nGenerated: " ++
        env.nowLocale ++
        "\n\nNote: This is a demo audio file. In production, this would contain the actual speech audio."
      .ok (audioFileName, writeFile fs1 textFileName (.text content))
    else fallbackTierFile env fs1
  else fallbackTierFile env fs

/-- Embedding of `generateAudio(text)`: returns the generated file name and
the updated directory, or `.error ()` when the function throws. -/
def generateAudio (text : String) (env : AudioEnv) (fs : FileSys) :
    Except Unit (String × FileSys) :=
  let audioFileName := "response_" ++ Nat.repr env.t0 ++ ".mp3"
  if env.mkdirOk then
    match env.primaryFetch with
    | some dat =>
      if env.writePrimaryOk then
        .ok (audioFileName, writeFile fs audioFileName (.bytes dat))
      else demoTierFile text env audioFileName fs
    | none => demoTierFile text env audioFileName fs
  else fallbackTierFile env fs

/-! ## Vapi provider data and the chat handler -/

/-- One element of the provider response `output` array. -/
structure OutputItem where
  content : Option String
deriving DecidableEq

/-- Shape of the provider `/chat` response body. -/
structure VapiChatResponse where
  id : String
  output : Option (List OutputItem)
  cost : Option ℚ
deriving DecidableEq

/-- The fixed fallback text used when the provider returns no content. -/
def noResponseText : String := "Sorry, I couldn\x27t generate a response."

/-- Embedding of `vapiResponse.output?.[0]?.content || fallback`:
the first output item content, with the fixed fallback when the path is
absent or the content is the (falsy) empty string. -/
def extractAssistantMessage (r : VapiChatResponse) : String :=
  match r.output.bind List.head? with
  | none => noResponseText
  | some item =>
    match item.content with
    | none => noResponseText
    | some s => if s = "" then noResponseText else s

/-- Body of a `POST /api/chat` request, as destructured by the handler. -/
structure ChatRequest where
  message : Option String
  systemMessage : Option String
deriving DecidableEq

/-- JSON payload of the outbound provider `/chat` call. -/
structure ProviderChatPayload where
  assistantId : String
  input : String
deriving DecidableEq

/-- Outcome of the outbound provider `/chat` call: a response body, or a
thrown error carrying `error.response?.status`. -/
inductive ProviderResult where
  | ok (r : VapiChatResponse)
  | fail (status : Option Nat)
deriving DecidableEq

/-- Outcome of the assistant-creation call inside `getOrCreateAssistant`:
the new assistant id, or a thrown error carrying `error.response?.status`. -/
inductive CreateResult where
  | ok (id : String)
  | fail (status : Option Nat)
deriving DecidableEq

/-- Embedding of `getOrCreateAssistant` over the `ASSISTANT_ID` cache.
Returns the call result, the cache afterwards, and how many assistant
creation requests were issued (0 or 1). -/
def getOrCreateAssistant (cached : Option String) (create : CreateResult) :
    CreateResult × Option String × Nat :=
  match cached with
  | some id => (.ok id, some id, 0)
  | none =>
    match create with
    | .ok id => (.ok id, some id, 1)
    | .fail s => (.fail s, none, 1)

/-- JSON body returned by the chat handler. -/
inductive ChatBody where
  /-- `res.status(400).json({error: msg})`. -/
  | clientError (msg : String)
  /-- The success shape `{response, audioFileName, chatId, cost}`. -/
  | success (response : String) (audioFileName : Option String)
      (chatId : String) (cost : ℚ)
  /-- The provider-failure shape `{response, audioFileName: null}`. -/
  | providerFailure (response : String)
deriving DecidableEq

/-- The `response` text field of a chat handler body, when present. -/
def ChatBody.responseText : ChatBody → Option String
  | .clientError _ => none
  | .success r _ _ _ => some r
  | .providerFailure r => some r

/-- The `audioFileName` field of a chat handler body (`none` is JSON null). -/
def ChatBody.audioFileNameField : ChatBody → Option String
  | .clientError _ => none
  | .success _ a _ _ => a
  | .providerFailure _ => none

/-- The fixed user-readable text chosen by the `catch` block of the chat
handler from `error.response?.status`. -/
def vapiErrorText (status : Option Nat) : String :=
  if status = some 400 then
    "I had trouble understanding your request. Could you please rephrase it?"
  else if status = some 401 then
    "There seems to be an authentication issue with the AI service. Please try again."
  else if status = some 429 then
    "I\x27m receiving a lot of requests right now. Please wait a moment and try again."
  else
    "I\x27m experiencing some technical difficulties. Please try again in a moment."

/-- Mutable server state: the `ASSISTANT_ID` cache, the in-memory
`audioFiles` map, and the `public/audio` directory. -/
structure ServerState where
  assistantId : Option String
  audioMap : List (String × String)
  fs : FileSys
deriving DecidableEq

/-- Server state at process start. -/
def initialState : ServerState := ⟨none, [], []⟩

/-- Environment of one chat request: outcomes of the assistant creation, of
the provider chat call, and of the audio generation. -/
structure ChatEnv where
  create : CreateResult
  chat : ProviderResult
  audio : AudioEnv
deriving DecidableEq

/-- Observable outcome of one `POST /api/chat` request: HTTP status, JSON
body, server state afterwards, number of assistant creation requests issued,
the provider chat payload if that call was issued, and whether
`generateAudio` was invoked. -/
structure ChatOutcome where
  status : Nat
  body : ChatBody
  state : ServerState
  createRequests : Nat
  providerPayload : Option ProviderChatPayload
  audioAttempted : Bool
deriving DecidableEq

/-- Embedding of the `POST /api/chat` handler. -/
def handleChat (st : ServerState) (req : ChatRequest) (env : ChatEnv) :
    ChatOutcome :=
  match req.message with
  | none => ⟨400, .clientError "Message is required", st, 0, none, false⟩
  | some msg =>
    if msg = "" then ⟨400, .clientError "Message is required", st, 0, none, false⟩
    else
      match getOrCreateAssistant st.assistantId env.create with
      | (.fail s, cache, creates) =>
        ⟨200, .providerFailure (vapiErrorText s),
          { st with assistantId := cache }, creates, none, false⟩
      | (.ok aid, cache, creates) =>
        let st1 : ServerState := { st with assistantId := cache }
        let payload : ProviderChatPayload := ⟨aid, jsTrim msg⟩
        match env.chat with
        | .fail s =>
          ⟨200, .providerFailure (vapiErrorText s), st1, creates, some payload, false⟩
        | .ok vr =>
          let assistantMessage := extractAssistantMessage vr
          match generateAudio assistantMessage env.audio st1.fs with
          | .ok (name, fs') =>
            ⟨200, .success assistantMessage (some name) vr.id (vr.cost.getD 0),
              { st1 with fs := fs' }, creates, some payload, true⟩
          | .error _ =>
            ⟨200, .success assistantMessage none vr.id (vr.cost.getD 0),
              st1, creates, some payload, true⟩

/-- JSON body of `GET /api/health`. -/
structure HealthBody where
  status : String
  message : String
  aiProvider : String
  hasVapiKey : Bool
  assistantId : Option String
deriving DecidableEq

/-- Embedding of the `GET /api/health` handler: the JSON body and the server
state afterwards. -/
def handleHealth (st : ServerState) (hasKey : Bool) : HealthBody × ServerState :=
  (⟨"ok", "Server is running", "Vapi AI", hasKey, st.assistantId⟩, st)

/-! ## Decimal representation: `Nat.repr` is injective

The timestamped file names of `generateAudio` interpolate `Date.now()` with
the decimal `toString`; distinctness of file names therefore reduces to
injectivity of `Nat.repr`, proved here via a clean most-significant-first
digit recursion. -/

/-- Decimal digit list of a natural number, most significant digit first. -/
def repDigits (n : Nat) : List Char :=
  if h : n / 10 = 0 then [Nat.digitChar (n % 10)]
  else repDigits (n / 10) ++ [Nat.digitChar (n % 10)]
decreasing_by omega

/-- With enough fuel, `Nat.toDigitsCore` computes `repDigits` onto the
accumulator. -/
theorem toDigitsCore_eq_repDigits :
    ∀ (f n : Nat) (acc : List Char), 0 < f → n < 10 ^ f →
      Nat.toDigitsCore 10 f n acc = repDigits n ++ acc := by
  intro f
  induction f with
  | zero => omega
  | succ f ih =>
    intro n acc _ hn
    simp only [Nat.toDigitsCore]
    by_cases h : n / 10 = 0
    · rw [if_pos h]
      conv_rhs => rw [repDigits]
      rw [dif_pos h]
      simp
    · rw [if_neg h]
      have hf : 0 < f := by
        rcases Nat.eq_zero_or_pos f with hf0 | hf0
        · subst hf0
          norm_num at hn
          omega
        · exact hf0
      have hlt : n / 10 < 10 ^ f := by
        apply (Nat.div_lt_iff_lt_mul (by norm_num : (0:ℕ) < 10)).mpr
        calc n < 10 ^ (f + 1) := hn
        _ = 10 ^ f * 10 := by rw [Nat.pow_succ]
      rw [ih (n / 10) (Nat.digitChar (n % 10) :: acc) hf hlt]
      conv_rhs => rw [repDigits]
      rw [dif_neg h]
      simp

/-- The runtime decimal rendering agrees with `repDigits`. -/
theorem repr_eq_repDigits (n : Nat) : Nat.repr n = (repDigits n).asString := by
  have h1 : n < 10 ^ (n + 1) := by
    calc n < 2 ^ n := Nat.lt_two_pow n
    _ ≤ 10 ^ n := Nat.pow_le_pow_left (by norm_num) n
    _ ≤ 10 ^ (n + 1) := Nat.pow_le_pow_right (by norm_num) (Nat.le_succ n)
  rw [Nat.repr, Nat.toDigits, toDigitsCore_eq_repDigits (n + 1) n [] (Nat.succ_pos n) h1]
  simp

/-- Value of a most-significant-first decimal digit list. -/
def valOfDigits (l : List Char) : Nat :=
  l.foldl (fun a c => 10 * a + (c.toNat - 48)) 0

/-- Folding the decimal digits of `n` onto an accumulator `a`. -/
theorem foldl_repDigits (n : Nat) :
    ∀ a : Nat, (repDigits n).foldl (fun a c => 10 * a + (c.toNat - 48)) a =
      a * 10 ^ (repDigits n).length + n := by
  induction n using Nat.strong_induction_on with
  | _ n ih =>
    intro a
    by_cases h : n / 10 = 0
    · rw [repDigits, dif_pos h]
      simp only [List.foldl_cons, List.foldl_nil, List.length_cons, List.length_nil]
      have hd : (Nat.digitChar (n % 10)).toNat - 48 = n % 10 := by
        have hall : ∀ m, m < 10 → (Nat.digitChar m).toNat - 48 = m := by decide
        exact hall (n % 10) (Nat.mod_lt _ (by norm_num))
      rw [hd]
      have hn : n % 10 = n := by omega
      rw [hn]
      ring
    · rw [repDigits, dif_neg h]
      rw [List.foldl_append]
      have hlt : n / 10 < n := by omega
      rw [ih (n / 10) hlt a]
      simp only [List.foldl_cons, List.foldl_nil, List.length_append, List.length_cons,
        List.length_nil]
      have hd : (Nat.digitChar (n % 10)).toNat - 48 = n % 10 := by
        have hall : ∀ m, m < 10 → (Nat.digitChar m).toNat - 48 = m := by decide
        exact hall (n % 10) (Nat.mod_lt _ (by norm_num))
      rw [hd]
      have hx : a * 10 ^ ((repDigits (n / 10)).length + (0 + 1)) =
          a * 10 ^ (repDigits (n / 10)).length * 10 := by ring
      rw [hx]
      have hnm : 10 * (n / 10) + n % 10 = n := Nat.div_add_mod n 10
      omega

/-- Decoding the decimal digits of `n` recovers `n`. -/
theorem valOfDigits_repDigits (n : Nat) : valOfDigits (repDigits n) = n := by
  have := foldl_repDigits n 0
  simpa [valOfDigits] using this

/-- Two numbers with equal decimal digit lists are equal. -/
theorem repDigits_injective : Function.Injective repDigits := by
  intro a b h
  have ha := valOfDigits_repDigits a
  rw [h, valOfDigits_repDigits] at ha
  omega

/-- The decimal rendering of natural numbers is injective. -/
theorem Nat.repr_injective : Function.Injective Nat.repr := by
  intro a b h
  rw [repr_eq_repDigits, repr_eq_repDigits, List.asString_inj] at h
  exact repDigits_injective h

/-! ## String lemmas for the generated file names -/

/-- A string spliced between a fixed prefix part and a fixed suffix part is
recoverable: the building of file names from timestamps is injective. -/
theorem append_middle_injective (p s a b : String)
    (h : p ++ a ++ s = p ++ b ++ s) : a = b := by
  have hd := congrArg String.data h
  simp only [String.data_append] at hd
  exact String.ext (List.append_cancel_left (List.append_cancel_right hd))

/-- A `response_` file name never equals a `fallback_` file name. -/
theorem response_ne_fallback_name (a b : String) :
    "response_" ++ a ++ ".mp3" ≠ "fallback_" ++ b ++ ".mp3" := by
  intro h
  have hd := congrArg String.data h
  have hr : "response_".data = ['r', 'e', 's', 'p', 'o', 'n', 's', 'e', '_'] := rfl
  have hf : "fallback_".data = ['f', 'a', 'l', 'l', 'b', 'a', 'c', 'k', '_'] := rfl
  simp only [String.data_append, hr, hf, List.cons_append, List.cons.injEq] at hd
  exact absurd hd.1 (by decide)

/-! ## Helper lemmas about the handlers -/

/-- The extracted assistant message is never the empty string. -/
theorem extractAssistantMessage_ne_empty (r : VapiChatResponse) :
    extractAssistantMessage r ≠ "" := by
  unfold extractAssistantMessage
  split
  · decide
  · split
    · decide
    · split
      · decide
      · assumption

/-- The fixed provider-failure texts are never the empty string. -/
theorem vapiErrorText_ne_empty (s : Option Nat) : vapiErrorText s ≠ "" := by
  unfold vapiErrorText
  split
  · decide
  · split
    · decide
    · split
      · decide
      · decide

/-- Trimming a non-empty all-whitespace string yields the empty string. -/
theorem jsTrim_eq_empty_of_whitespace (s : String)
    (h : ∀ c ∈ s.data, c.isWhitespace = true) : jsTrim s = "" := by
  unfold jsTrim
  have h1 : s.data.dropWhile Char.isWhitespace = [] :=
    List.dropWhile_eq_nil_iff.mpr h
  rw [h1]
  rfl

/-- The name returned by the tertiary tier. -/
theorem fallbackTierFile_name (e : AudioEnv) (f : FileSys) (n : String)
    (g : FileSys) (h : fallbackTierFile e f = .ok (n, g)) :
    n = "fallback_" ++ Nat.repr e.tFb ++ ".mp3" := by
  unfold fallbackTierFile at h
  split at h
  · simp only [Except.ok.injEq, Prod.mk.injEq] at h
    exact h.1.symm
  · exact absurd h (by simp)

/-- The name returned by the secondary tier: either the `response_` name it
was given, or the tertiary `fallback_` name. -/
theorem demoTierFile_name (x : String) (e : AudioEnv) (a : String)
    (f : FileSys) (n : String) (g : FileSys)
    (h : demoTierFile x e a f = .ok (n, g)) :
    n = a ∨ n = "fallback_" ++ Nat.repr e.tFb ++ ".mp3" := by
  unfold demoTierFile at h
  split at h
  · split at h
    · simp only [Except.ok.injEq, Prod.mk.injEq] at h
      exact Or.inl h.1.symm
    · exact Or.inr (fallbackTierFile_name e _ n g h)
  · exact Or.inr (fallbackTierFile_name e f n g h)

/-- Every name returned by `generateAudio` is the `response_` name stamped
with `t0` or the `fallback_` name stamped with `tFb`. -/
theorem generateAudio_name_shape (x : String) (e : AudioEnv) (f : FileSys)
    (n : String) (g : FileSys) (h : generateAudio x e f = .ok (n, g)) :
    n = "response_" ++ Nat.repr e.t0 ++ ".mp3" ∨
      n = "fallback_" ++ Nat.repr e.tFb ++ ".mp3" := by
  unfold generateAudio at h
  split at h
  · split at h
    · split at h
      · simp only [Except.ok.injEq, Prod.mk.injEq] at h
        exact Or.inl h.1.symm
      · exact demoTierFile_name x e _ f n g h
    · exact demoTierFile_name x e _ f n g h
  · exact Or.inr (fallbackTierFile_name e f n g h)

/-- The tertiary tier writes the file it names. -/
theorem fallbackTierFile_mem (e : AudioEnv) (f : FileSys) (n : String)
    (g : FileSys) (h : fallbackTierFile e f = .ok (n, g)) :
    n ∈ g.map Prod.fst := by
  unfold fallbackTierFile at h
  split at h
  · simp only [Except.ok.injEq, Prod.mk.injEq] at h
    rcases h with ⟨h1, h2⟩
    subst h1
    subst h2
    simp [writeFile]
  · exact absurd h (by simp)

/-- The secondary tier writes the file it names. -/
theorem demoTierFile_mem (x : String) (e : AudioEnv) (a : String)
    (f : FileSys) (n : String) (g : FileSys)
    (h : demoTierFile x e a f = .ok (n, g)) :
    n ∈ g.map Prod.fst := by
  unfold demoTierFile at h
  split at h
  · split at h
    · simp only [Except.ok.injEq, Prod.mk.injEq] at h
      rcases h with ⟨h1, h2⟩
      subst h1
      subst h2
      simp [writeFile]
    · exact fallbackTierFile_mem e _ n g h
  · exact fallbackTierFile_mem e f n g h

/-- Whichever tier produced the returned name, the named file is in the
directory afterwards. -/
theorem generateAudio_mem (x : String) (e : AudioEnv) (f : FileSys)
    (n : String) (g : FileSys) (h : generateAudio x e f = .ok (n, g)) :
    n ∈ g.map Prod.fst := by
  unfold generateAudio at h
  split at h
  · split at h
    · split at h
      · simp only [Except.ok.injEq, Prod.mk.injEq] at h
        rcases h with ⟨h1, h2⟩
        subst h1
        subst h2
        simp [writeFile]
      · exact demoTierFile_mem x e _ f n g h
    · exact demoTierFile_mem x e _ f n g h
  · exact fallbackTierFile_mem e f n g h

/-- `generateAudio` throws exactly when the tertiary write fails and neither
the primary nor the secondary tier ran to completion. -/
theorem generateAudio_error_iff (x : String) (e : AudioEnv) (f : FileSys) :
    generateAudio x e f = .error () ↔
      e.writeTertiaryOk = false ∧
      ¬(e.mkdirOk = true ∧ e.primaryFetch.isSome = true ∧ e.writePrimaryOk = true) ∧
      ¬(e.mkdirOk = true ∧ e.writeSecondaryMp3Ok = true ∧
        e.writeSecondaryTxtOk = true) := by
  unfold generateAudio demoTierFile fallbackTierFile
  rcases e with ⟨t0, tT, tF, loc, mk, pf, w1, w2, w3, w4⟩
  cases mk <;> cases pf <;> cases w1 <;> cases w2 <;> cases w3 <;> cases w4 <;>
    simp

/-! ## Behavior lemmas for the chat handler -/

/-- With a non-empty message the chat handler always answers HTTP 200. -/
theorem handleChat_status_200 (st : ServerState) (req : ChatRequest)
    (env : ChatEnv) (msg : String) (hm : req.message = some msg)
    (hne : msg ≠ "") : (handleChat st req env).status = 200 := by
  obtain ⟨said, amap, afs⟩ := st
  obtain ⟨ecr, ech, eau⟩ := env
  simp only [handleChat, hm, if_neg hne]
  cases said with
  | some aid =>
    cases ech with
    | fail s => rfl
    | ok vr =>
      rcases hg : generateAudio (extractAssistantMessage vr) eau afs with u | ⟨nm, g⟩ <;>
        simp [getOrCreateAssistant, hg]
  | none =>
    cases ecr with
    | fail s => rfl
    | ok aid =>
      cases ech with
      | fail s => rfl
      | ok vr =>
        rcases hg : generateAudio (extractAssistantMessage vr) eau afs with u | ⟨nm, g⟩ <;>
          simp [getOrCreateAssistant, hg]

/-- With a non-empty message the chat handler body always carries a
non-empty `response` text. -/
theorem handleChat_text_nonempty (st : ServerState) (req : ChatRequest)
    (env : ChatEnv) (msg : String) (hm : req.message = some msg)
    (hne : msg ≠ "") :
    ∃ t, (handleChat st req env).body.responseText = some t ∧ t ≠ "" := by
  obtain ⟨said, amap, afs⟩ := st
  obtain ⟨ecr, ech, eau⟩ := env
  simp only [handleChat, hm, if_neg hne]
  cases said with
  | some aid =>
    cases ech with
    | fail s => exact ⟨vapiErrorText s, rfl, vapiErrorText_ne_empty s⟩
    | ok vr =>
      rcases hg : generateAudio (extractAssistantMessage vr) eau afs with u | ⟨nm, g⟩ <;>
        simp only [getOrCreateAssistant, hg] <;>
        exact ⟨extractAssistantMessage vr, rfl, extractAssistantMessage_ne_empty vr⟩
  | none =>
    cases ecr with
    | fail s => exact ⟨vapiErrorText s, rfl, vapiErrorText_ne_empty s⟩
    | ok aid =>
      cases ech with
      | fail s => exact ⟨vapiErrorText s, rfl, vapiErrorText_ne_empty s⟩
      | ok vr =>
        rcases hg : generateAudio (extractAssistantMessage vr) eau afs with u | ⟨nm, g⟩ <;>
          simp only [getOrCreateAssistant, hg] <;>
          exact ⟨extractAssistantMessage vr, rfl, extractAssistantMessage_ne_empty vr⟩

/-- A failing assistant creation on a cold cache is mapped to the fixed
status-dependent text with null audio. -/
theorem handleChat_create_fail (st : ServerState) (req : ChatRequest)
    (env : ChatEnv) (msg : String) (s : Option Nat) (hm : req.message = some msg)
    (hne : msg ≠ "") (hcr : env.create = .fail s) (hnone : st.assistantId = none) :
    (handleChat st req env).body = .providerFailure (vapiErrorText s) ∧
    (handleChat st req env).body.audioFileNameField = none := by
  refine ⟨?_, ?_⟩ <;>
    simp [handleChat, hm, if_neg hne, hcr, hnone, getOrCreateAssistant,
      ChatBody.audioFileNameField]

/-- A failing provider chat call after a successful assistant stage is
mapped to the fixed status-dependent text with null audio. -/
theorem handleChat_provider_fail (st : ServerState) (req : ChatRequest)
    (env : ChatEnv) (msg : String) (s : Option Nat) (hm : req.message = some msg)
    (hne : msg ≠ "") (hch : env.chat = .fail s)
    (hpay : (handleChat st req env).providerPayload.isSome = true) :
    (handleChat st req env).body = .providerFailure (vapiErrorText s) ∧
    (handleChat st req env).body.audioFileNameField = none := by
  obtain ⟨said, amap, afs⟩ := st
  obtain ⟨ecr, ech, eau⟩ := env
  have hch2 : ech = ProviderResult.fail s := hch
  cases said with
  | some aid =>
    refine ⟨?_, ?_⟩ <;>
      simp [handleChat, hm, if_neg hne, hch2, getOrCreateAssistant,
        ChatBody.audioFileNameField]
  | none =>
    cases ecr with
    | ok aid =>
      refine ⟨?_, ?_⟩ <;>
        simp [handleChat, hm, if_neg hne, hch2, getOrCreateAssistant,
          ChatBody.audioFileNameField]
    | fail u =>
      simp [handleChat, hm, if_neg hne, getOrCreateAssistant] at hpay

/-- A throwing `generateAudio` is caught: the handler still answers 200 with
the text and a null `audioFileName`. -/
theorem handleChat_audio_error (st : ServerState) (req : ChatRequest)
    (env : ChatEnv) (msg : String) (vr : VapiChatResponse)
    (hm : req.message = some msg) (hne : msg ≠ "") (hch : env.chat = .ok vr)
    (hga : generateAudio (extractAssistantMessage vr) env.audio st.fs = .error ())
    (hpay : (handleChat st req env).providerPayload.isSome = true) :
    (handleChat st req env).status = 200 ∧
    (handleChat st req env).body =
      .success (extractAssistantMessage vr) none vr.id (vr.cost.getD 0) := by
  obtain ⟨said, amap, afs⟩ := st
  obtain ⟨ecr, ech, eau⟩ := env
  have hch2 : ech = ProviderResult.ok vr := hch
  have hga2 : generateAudio (extractAssistantMessage vr) eau afs = Except.error () := hga
  cases said with
  | some aid =>
    refine ⟨?_, ?_⟩ <;>
      simp [handleChat, hm, if_neg hne, hch2, getOrCreateAssistant, hga2]
  | none =>
    cases ecr with
    | ok aid =>
      refine ⟨?_, ?_⟩ <;>
        simp [handleChat, hm, if_neg hne, hch2, getOrCreateAssistant, hga2]
    | fail u =>
      simp [handleChat, hm, if_neg hne, getOrCreateAssistant] at hpay

/-- A successful chat pass leaves a cached assistant id in the state. -/
theorem handleChat_success_caches_assistant (st : ServerState)
    (req : ChatRequest) (env : ChatEnv) (r : String) (a : Option String)
    (c : String) (q : ℚ) (hb : (handleChat st req env).body = .success r a c q) :
    ((handleChat st req env).state.assistantId).isSome = true := by
  obtain ⟨said, amap, afs⟩ := st
  obtain ⟨ecr, ech, eau⟩ := env
  rcases hmsg : (ChatRequest.message req) with _ | msg
  · simp [handleChat, hmsg] at hb
  · by_cases hne : msg = ""
    · simp [handleChat, hmsg, hne] at hb
    · cases said with
      | some aid =>
        cases ech with
        | fail s => simp [handleChat, hmsg, hne, getOrCreateAssistant] at hb
        | ok vr =>
          rcases hg : generateAudio (extractAssistantMessage vr) eau afs with u | ⟨nm, g⟩ <;>
            simp [handleChat, hmsg, hne, getOrCreateAssistant, hg]
      | none =>
        cases ecr with
        | fail s => simp [handleChat, hmsg, hne, getOrCreateAssistant] at hb
        | ok aid =>
          cases ech with
          | fail s => simp [handleChat, hmsg, hne, getOrCreateAssistant] at hb
          | ok vr =>
            rcases hg : generateAudio (extractAssistantMessage vr) eau afs with u | ⟨nm, g⟩ <;>
              simp [handleChat, hmsg, hne, getOrCreateAssistant, hg]

/-! ## Claim theorems -/

/-- Claim C1: for every non-empty message submitted to `POST /api/chat`, the
handler returns HTTP 200 with a non-empty `response` text, even when the
provider call fails with status 400, 401, 429 or any other error; each
provider failure mode (a failing assistant creation on a cold cache, or a
failing chat call) is mapped to a fixed user-readable text with
`audioFileName` null, never to an HTTP error status. -/
theorem chat_nonempty_message_returns_200_with_nonempty_text
    (st : ServerState) (req : ChatRequest) (env : ChatEnv) (msg : String)
    (hm : req.message = some msg) (hne : msg ≠ "") :
    (handleChat st req env).status = 200 ∧
    (∃ t, (handleChat st req env).body.responseText = some t ∧ t ≠ "") ∧
    (∀ s, env.create = .fail s → st.assistantId = none →
      (handleChat st req env).body = .providerFailure (vapiErrorText s) ∧
      (handleChat st req env).body.audioFileNameField = none) ∧
    (∀ s, env.chat = .fail s → (handleChat st req env).providerPayload.isSome = true →
      (handleChat st req env).body = .providerFailure (vapiErrorText s) ∧
      (handleChat st req env).body.audioFileNameField = none) := by
  refine ⟨handleChat_status_200 st req env msg hm hne,
    handleChat_text_nonempty st req env msg hm hne, ?_, ?_⟩
  · intro s hcr hnone
    exact handleChat_create_fail st req env msg s hm hne hcr hnone
  · intro s hch hpay
    exact handleChat_provider_fail st req env msg s hm hne hch hpay

/-- A chat environment whose provider call fails with a 429 status and whose
audio tiers would all succeed. -/
def chatEnvFail429W : ChatEnv :=
  ⟨.ok "a1", .fail (some 429), ⟨5, 6, 7, "now", true, some [1, 2, 3], true, true, true, true⟩⟩

/-- Witness for C1 at the concrete message `Hello` under a 429 failure. -/
theorem chat_nonempty_message_returns_200_with_nonempty_text_witness :
    (handleChat initialState ⟨some "Hello", none⟩ chatEnvFail429W).status = 200 ∧
    (∃ t, (handleChat initialState ⟨some "Hello", none⟩ chatEnvFail429W).body.responseText =
      some t ∧ t ≠ "") ∧
    (∀ s, chatEnvFail429W.create = .fail s → initialState.assistantId = none →
      (handleChat initialState ⟨some "Hello", none⟩ chatEnvFail429W).body =
        .providerFailure (vapiErrorText s) ∧
      (handleChat initialState ⟨some "Hello", none⟩ chatEnvFail429W).body.audioFileNameField =
        none) ∧
    (∀ s, chatEnvFail429W.chat = .fail s →
      (handleChat initialState ⟨some "Hello", none⟩ chatEnvFail429W).providerPayload.isSome =
        true →
      (handleChat initialState ⟨some "Hello", none⟩ chatEnvFail429W).body =
        .providerFailure (vapiErrorText s) ∧
      (handleChat initialState ⟨some "Hello", none⟩ chatEnvFail429W).body.audioFileNameField =
        none) :=
  chat_nonempty_message_returns_200_with_nonempty_text initialState
    ⟨some "Hello", none⟩ chatEnvFail429W "Hello" rfl (by decide)

/-- The cost 0.002 of the C3 scenario as an exact rational, built in lowest
terms so that kernel evaluation is structural. -/
def c3Cost : ℚ := ⟨1, 500, by norm_num, Nat.coprime_one_left 500⟩

/-- The rational used in the C3 stub is exactly the decimal 0.002. -/
theorem c3_cost_is_decimal_0_002 : c3Cost = (0.002 : ℚ) := by
  have h : c3Cost = Rat.divInt 1 500 := Rat.mk'_eq_divInt
  rw [h, Rat.divInt_eq_div]
  norm_num

/-- The provider stub of the C3 scenario. -/
def c3Response : VapiChatResponse := ⟨"c1", some [⟨some "Hi there!"⟩], some c3Cost⟩

/-- The environment of the C3 scenario: assistant creation would succeed,
the provider returns the stub, and the primary TTS tier succeeds. -/
def c3Env : ChatEnv :=
  ⟨.ok "a1", .ok c3Response, ⟨5, 6, 7, "now", true, some [1, 2, 3], true, true, true, true⟩⟩

/-- Claim C3: posting message `Hello` with an existing assistant, a provider
stub returning id `c1`, content `Hi there!` and cost 0.002, and successful
audio generation yields HTTP 200 with body
`{response: "Hi there!", audioFileName: non-null, chatId: "c1", cost: 0.002}`. -/
theorem chat_hello_scenario_yields_expected_body :
    handleChat ⟨some "a0", [], []⟩ ⟨some "Hello", none⟩ c3Env =
      ⟨200, .success "Hi there!" (some "response_5.mp3") "c1" c3Cost,
       ⟨some "a0", [], [("response_5.mp3", .bytes [1, 2, 3])]⟩, 0,
       some ⟨"a0", "Hello"⟩, true⟩ := by
  decide

/-- Claim C8: a `POST /api/chat` request with a missing or empty-string
message yields HTTP 400 `{error: "Message is required"}`, with no assistant
creation, no provider call and no audio generation, and the server state
unchanged. -/
theorem chat_missing_or_empty_message_rejected
    (st : ServerState) (env : ChatEnv) (m sm : Option String)
    (h : m = none ∨ m = some "") :
    handleChat st ⟨m, sm⟩ env =
      ⟨400, .clientError "Message is required", st, 0, none, false⟩ := by
  rcases h with h | h <;> subst h <;> rfl

/-- Witness for C8 at the concrete body `{}` (no message field). -/
theorem chat_missing_or_empty_message_rejected_witness :
    handleChat initialState ⟨none, none⟩ chatEnvFail429W =
      ⟨400, .clientError "Message is required", initialState, 0, none, false⟩ :=
  chat_missing_or_empty_message_rejected initialState chatEnvFail429W none none
    (Or.inl rfl)

/-- Claim C9: the `systemMessage` field of a chat request never influences
the provider payload or the handler response: two requests that differ only
in `systemMessage` produce identical outcomes (same HTTP status and body,
same provider-call payload, same state). -/
theorem chat_ignores_systemMessage (st : ServerState) (env : ChatEnv)
    (m s1 s2 : Option String) :
    handleChat st ⟨m, s1⟩ env = handleChat st ⟨m, s2⟩ env := rfl

/-- Counterexample to Claim C5 as stated: when the first creation request
fails (here with status 500) the cache stays unset, so a second sequential
call issues a second creation request -- two requests for one pair of calls. -/
theorem ensure_assistant_failed_creation_retries :
    (getOrCreateAssistant none (.fail (some 500))).2.2 +
      (getOrCreateAssistant (getOrCreateAssistant none (.fail (some 500))).2.1
        (.fail (some 500))).2.2 = 2 ∧
    ¬((getOrCreateAssistant none (.fail (some 500))).2.2 +
      (getOrCreateAssistant (getOrCreateAssistant none (.fail (some 500))).2.1
        (.fail (some 500))).2.2 ≤ 1) := by
  decide

/-- Claim C5 (amended): for every pair of sequential calls to
`getOrCreateAssistant` in which the first call returns successfully, the
second call issues no creation request and returns the cached id
immediately, so the pair issues at most one creation request in total.
(Unamended, the claim fails when the first creation request throws: the
cache stays unset and the second call issues a new request.) -/
theorem ensure_assistant_second_call_uses_cache
    (cached : Option String) (c1 c2 : CreateResult) (id : String)
    (h : (getOrCreateAssistant cached c1).1 = .ok id) :
    getOrCreateAssistant (getOrCreateAssistant cached c1).2.1 c2 =
      (.ok id, some id, 0) ∧
    (getOrCreateAssistant cached c1).2.2 +
      (getOrCreateAssistant (getOrCreateAssistant cached c1).2.1 c2).2.2 ≤ 1 := by
  cases cached with
  | some a =>
    simp only [getOrCreateAssistant, CreateResult.ok.injEq] at h ⊢
    subst h
    exact ⟨rfl, by norm_num⟩
  | none =>
    cases c1 with
    | ok i =>
      simp only [getOrCreateAssistant, CreateResult.ok.injEq] at h ⊢
      subst h
      exact ⟨rfl, by norm_num⟩
    | fail s =>
      simp only [getOrCreateAssistant] at h
      exact absurd h (by simp)

/-- Witness for the amended C5 at a cold cache and a succeeding creation. -/
theorem ensure_assistant_second_call_uses_cache_witness :
    getOrCreateAssistant (getOrCreateAssistant none (.ok "a1")).2.1 (.ok "a2") =
      (.ok "a1", some "a1", 0) ∧
    (getOrCreateAssistant none (.ok "a1")).2.2 +
      (getOrCreateAssistant (getOrCreateAssistant none (.ok "a1")).2.1
        (.ok "a2")).2.2 ≤ 1 :=
  ensure_assistant_second_call_uses_cache none (.ok "a1") (.ok "a2") "a1" rfl

/-- Claim C6: `GET /api/health` has no side effects on the server state; on
the initial state (before any chat) it reports a null assistant id, and
after any chat call whose body is the success shape it reports a non-null
assistant id. -/
theorem health_reports_cache_without_side_effects
    (st : ServerState) (hasKey hk2 : Bool) (req : ChatRequest) (env : ChatEnv) :
    (handleHealth st hasKey).2 = st ∧
    (handleHealth initialState hk2).1.assistantId = none ∧
    (∀ r a c q, (handleChat st req env).body = .success r a c q →
      ((handleHealth (handleChat st req env).state hasKey).1.assistantId).isSome = true) := by
  refine ⟨rfl, rfl, ?_⟩
  intro r a c q hb
  exact handleChat_success_caches_assistant st req env r a c q hb

/-- Witness for C6: the health body after the C3 scenario chat reports a
non-null assistant id, and the health call leaves the state unchanged. -/
theorem health_reports_cache_without_side_effects_witness :
    (handleHealth ⟨some "a0", [], []⟩ true).2 = (⟨some "a0", [], []⟩ : ServerState) ∧
    (handleHealth initialState true).1.assistantId = none ∧
    (∀ r a c q,
      (handleChat ⟨some "a0", [], []⟩ ⟨some "Hello", none⟩ c3Env).body = .success r a c q →
      ((handleHealth (handleChat ⟨some "a0", [], []⟩ ⟨some "Hello", none⟩ c3Env).state
        true).1.assistantId).isSome = true) :=
  health_reports_cache_without_side_effects ⟨some "a0", [], []⟩ true true
    ⟨some "Hello", none⟩ c3Env

/-- Claim C10: a chat message consisting only of whitespace passes the
truthiness validation (it is a non-empty string), the handler proceeds, and
the provider payload's `input` field is the trimmed, hence empty, string. -/
theorem whitespace_message_accepted_and_trimmed_to_empty_input
    (st : ServerState) (req : ChatRequest) (env : ChatEnv) (s aid : String)
    (hm : req.message = some s) (hne : s ≠ "")
    (hws : ∀ c ∈ s.data, c.isWhitespace = true)
    (hc : st.assistantId = some aid) :
    (handleChat st req env).status = 200 ∧
    (handleChat st req env).body ≠ .clientError "Message is required" ∧
    (handleChat st req env).providerPayload = some ⟨aid, ""⟩ := by
  obtain ⟨said, amap, afs⟩ := st
  obtain ⟨ecr, ech, eau⟩ := env
  have hc2 : said = some aid := hc
  subst hc2
  have htrim : jsTrim s = "" := jsTrim_eq_empty_of_whitespace s hws
  refine ⟨handleChat_status_200 ⟨some aid, amap, afs⟩ req ⟨ecr, ech, eau⟩ s hm hne, ?_, ?_⟩
  · simp only [handleChat, hm, if_neg hne, getOrCreateAssistant]
    cases ech with
    | fail u => simp
    | ok vr =>
      rcases hg : generateAudio (extractAssistantMessage vr) eau afs with u | ⟨nm, g⟩ <;>
        simp [hg]
  · simp only [handleChat, hm, if_neg hne, getOrCreateAssistant, htrim]
    cases ech with
    | fail u => rfl
    | ok vr =>
      rcases hg : generateAudio (extractAssistantMessage vr) eau afs with u | ⟨nm, g⟩ <;>
        simp [hg]

/-- Witness for C10 at the concrete three-space message. -/
theorem whitespace_message_accepted_and_trimmed_to_empty_input_witness :
    (handleChat ⟨some "a0", [], []⟩ ⟨some "   ", none⟩ c3Env).status = 200 ∧
    (handleChat ⟨some "a0", [], []⟩ ⟨some "   ", none⟩ c3Env).body ≠
      .clientError "Message is required" ∧
    (handleChat ⟨some "a0", [], []⟩ ⟨some "   ", none⟩ c3Env).providerPayload =
      some ⟨"a0", ""⟩ :=
  whitespace_message_accepted_and_trimmed_to_empty_input ⟨some "a0", [], []⟩
    ⟨some "   ", none⟩ c3Env "   " "a0" rfl (by decide) (by decide) rfl

/-- Claim C2: every `generateAudio` call that returns a file name leaves
that file on disk (whichever of the three tiers produced it); it throws only
if all three tiers fail; and the chat handler catches that error and returns
the text response with `audioFileName` null instead of failing the request. -/
theorem generateAudio_contract (x : String) (e : AudioEnv) (f : FileSys) :
    (∀ n g, generateAudio x e f = .ok (n, g) → n ∈ g.map Prod.fst) ∧
    (generateAudio x e f = .error () →
      e.writeTertiaryOk = false ∧
      ¬(e.mkdirOk = true ∧ e.primaryFetch.isSome = true ∧ e.writePrimaryOk = true) ∧
      ¬(e.mkdirOk = true ∧ e.writeSecondaryMp3Ok = true ∧
        e.writeSecondaryTxtOk = true)) ∧
    (∀ st req env msg vr, req.message = some msg → msg ≠ "" →
      env.chat = .ok vr → env.audio = e →
      generateAudio (extractAssistantMessage vr) e st.fs = .error () →
      (handleChat st req env).providerPayload.isSome = true →
      (handleChat st req env).status = 200 ∧
      (handleChat st req env).body =
        .success (extractAssistantMessage vr) none vr.id (vr.cost.getD 0)) := by
  refine ⟨?_, ?_, ?_⟩
  · intro n g h
    exact generateAudio_mem x e f n g h
  · intro h
    exact (generateAudio_error_iff x e f).mp h
  · intro st req env msg vr hm hne hch heq hga hpay
    rw [← heq] at hga
    exact handleChat_audio_error st req env msg vr hm hne hch hga hpay

/-- An audio environment whose primary tier succeeds at timestamp 8. -/
def audioEnvPrimW : AudioEnv := ⟨8, 9, 10, "now", true, some [7], true, true, true, true⟩

/-- An audio environment in which all three tiers fail. -/
def audioEnvAllFailW : AudioEnv := ⟨11, 12, 13, "now", true, none, false, false, true, false⟩

/-- Witness for C2: a primary-tier success leaves its file on disk, and an
all-tiers failure satisfies the characterization of a throwing call. -/
theorem generateAudio_contract_witness :
    (("response_8.mp3" : String) ∈
      ([("response_8.mp3", FileData.bytes [7])] : FileSys).map Prod.fst) ∧
    (audioEnvAllFailW.writeTertiaryOk = false ∧
      ¬(audioEnvAllFailW.mkdirOk = true ∧ audioEnvAllFailW.primaryFetch.isSome = true ∧
        audioEnvAllFailW.writePrimaryOk = true) ∧
      ¬(audioEnvAllFailW.mkdirOk = true ∧ audioEnvAllFailW.writeSecondaryMp3Ok = true ∧
        audioEnvAllFailW.writeSecondaryTxtOk = true)) :=
  ⟨(generateAudio_contract "hi" audioEnvPrimW []).1 "response_8.mp3"
      [("response_8.mp3", FileData.bytes [7])] (by decide),
    (generateAudio_contract "hello" audioEnvAllFailW []).2.1 (by decide)⟩

/-- The character data underlying `List.asString` is the original list. -/
theorem asString_data (l : List Char) : (l.asString).data = l :=
  List.toList_asString l

/-- Taking the first 200 characters is idempotent. -/
theorem jsSubstring_idem (t : String) :
    jsSubstring (jsSubstring t 200) 200 = jsSubstring t 200 := by
  unfold jsSubstring
  rw [asString_data, List.take_take, min_self]

/-- Claim C4: the primary TTS request URL is built from at most the first
200 characters of the source text: texts agreeing on their first 200
characters produce the same URL, and the URL of any text equals the URL of
its 200-character truncation, so no character beyond position 200 can appear
in it. -/
theorem ttsUrl_uses_at_most_first_200_chars (t1 t2 : String)
    (h : jsSubstring t1 200 = jsSubstring t2 200) :
    ttsUrl t1 = ttsUrl t2 ∧ ttsUrl t1 = ttsUrl (jsSubstring t1 200) := by
  constructor
  · unfold ttsUrl
    rw [h]
  · unfold ttsUrl
    rw [jsSubstring_idem]

/-- A 201-character text whose character 201 is `b`. -/
def longTextAW : String := (List.replicate 200 'a' ++ ['b']).asString

/-- A 201-character text differing from the previous one only at
position 201. -/
def longTextBW : String := (List.replicate 200 'a' ++ ['c']).asString

/-- The 200-character truncation of a 201-character text drops its last
character. -/
theorem jsSubstring_longText (c : Char) :
    jsSubstring ((List.replicate 200 'a' ++ [c]).asString) 200 =
      (List.replicate 200 'a').asString := by
  unfold jsSubstring
  rw [asString_data,
    List.take_append_of_le_length (by rw [List.length_replicate]),
    List.take_replicate, min_self]

/-- Witness for C4: the two 201-character texts above differ only beyond
position 200 and receive identical TTS URLs. -/
theorem ttsUrl_uses_at_most_first_200_chars_witness :
    ttsUrl longTextAW = ttsUrl longTextBW ∧
    ttsUrl longTextAW = ttsUrl (jsSubstring longTextAW 200) :=
  ttsUrl_uses_at_most_first_200_chars longTextAW longTextBW
    ((jsSubstring_longText 'b').trans (jsSubstring_longText 'c').symm)

/-- Counterexample to Claim C7 as stated: two distinct `generateAudio` calls
(different texts) that fall in the same `Date.now()` millisecond return the
same file name. -/
theorem same_millisecond_calls_return_equal_filenames :
    (generateAudio "a" audioEnvPrimW []).toOption.map Prod.fst =
      some "response_8.mp3" ∧
    (generateAudio "b" audioEnvPrimW []).toOption.map Prod.fst =
      some "response_8.mp3" ∧
    ("a" : String) ≠ "b" := by
  decide

/-- Claim C7 (amended): the returned file names are unique per call provided
the calls draw distinct timestamps: for two calls whose `Date.now()` values
used in file names differ (as for calls in different milliseconds), the
returned names are distinct, whichever tiers produced them. (Unamended, the
claim fails for two calls within one millisecond, which receive equal
timestamps and equal names.) -/
theorem generateAudio_distinct_timestamps_distinct_filenames
    (x1 x2 : String) (e1 e2 : AudioEnv) (f1 f2 : FileSys)
    (n1 n2 : String) (g1 g2 : FileSys)
    (h1 : generateAudio x1 e1 f1 = .ok (n1, g1))
    (h2 : generateAudio x2 e2 f2 = .ok (n2, g2))
    (ht0 : e1.t0 ≠ e2.t0) (htf : e1.tFb ≠ e2.tFb) : n1 ≠ n2 := by
  rcases generateAudio_name_shape x1 e1 f1 n1 g1 h1 with hs1 | hs1 <;>
    rcases generateAudio_name_shape x2 e2 f2 n2 g2 h2 with hs2 | hs2 <;>
    subst hs1 <;> subst hs2
  · intro h
    exact ht0 (Nat.repr_injective (append_middle_injective "response_" ".mp3" _ _ h))
  · exact response_ne_fallback_name _ _
  · intro h
    exact response_ne_fallback_name _ _ h.symm
  · intro h
    exact htf (Nat.repr_injective (append_middle_injective "fallback_" ".mp3" _ _ h))

/-- A second primary-success audio environment with timestamps disjoint
from `audioEnvPrimW`. -/
def audioEnvPrim2W : AudioEnv := ⟨50, 60, 70, "now", true, some [7], true, true, true, true⟩

/-- Witness for the amended C7 at two concrete calls in distinct
milliseconds. -/
theorem generateAudio_distinct_timestamps_distinct_filenames_witness :
    ("response_8.mp3" : String) ≠ "response_50.mp3" :=
  generateAudio_distinct_timestamps_distinct_filenames "a" "b" audioEnvPrimW
    audioEnvPrim2W [] [] "response_8.mp3" "response_50.mp3"
    [("response_8.mp3", FileData.bytes [7])]
    [("response_50.mp3", FileData.bytes [7])]
    (by decide) (by decide) (by decide) (by decide)
